import Mathlib

/-
Verification of the nezha latency-monitor script (src/nezha.py) against its
natural-language specification.

The script is embedded shallowly:

* JSON values decoded by `r.json()` become the inductive `PyJson`; a response
  body that is not valid JSON is `none` (then `r.json()` raises).
* `fetch_servers` becomes a pure function from an `HttpResp` to a
  `FetchResult`; Python exceptions become explicit constructors
  (`PermissionError` is `authRequired`, the explicit
  `RuntimeError("JSON 结构异常")` is `malformed`, and an `AttributeError` or
  a JSON-decoding error is `crash`).
* The fetch/login retry in `main` becomes `fetchPhase`, parameterised by the
  outcome each call to `fetch_servers` and `login` would have.
* Socket measurements are oracle inputs (`ProbeOracle`): `tcp port` is the
  elapsed time `tcp_latency` would return for that port (in milliseconds, as
  a rational), `none` meaning the connect failed; `tls` likewise for
  `tls_latency`.  The per-node loop body of `main` becomes `probeNode`,
  which also reports how many TCP connects were attempted and whether a TLS
  handshake was attempted.
* Python float arithmetic on measured times is modelled over ℚ, with
  `round(x, 1)` modelled as round-half-to-even at one decimal (`pyRound1`).
* The persisted JSON document becomes an insertion-ordered association list
  (`TickDict`), matching a Python dict; `record`'s pure core is
  `recordPure`, and the file-system layer is a `FileState` oracle
  (`missing` / `corrupt` / `good d`, where `corrupt` means `json.loads`
  raises).  Tick keys are kept abstract behind a linear order: the source
  keys ticks by `strftime("%Y-%m-%d %H:%M")` strings, whose lexicographic
  order (the order used by Python's `sorted(data)`) coincides with
  chronological order on that zero-padded format.
* `hashlib.md5`-based `color_for` is an external library call and is passed
  in as an opaque `color : String → String` parameter of the SVG renderer.
-/

/-! ## JSON values and the server-list fetch (`fetch_servers`) -/

/-- A decoded JSON value, as produced by `requests.Response.json()`. -/
inductive PyJson : Type where
  | null : PyJson
  | bool (b : Bool) : PyJson
  | num (n : Int) : PyJson
  | str (s : String) : PyJson
  | arr (elems : List PyJson) : PyJson
  | obj (fields : List (String × PyJson)) : PyJson

/-- An HTTP response as seen by `fetch_servers`: the status code and the
decoded JSON body (`none` when the body is not valid JSON, in which case
`r.json()` raises). -/
structure HttpResp : Type where
  status : Nat
  body : Option PyJson

/-- Python `dict.get(k)` on a decoded JSON object: the value of the first
field named `k`, if any. -/
def jsonGet (fields : List (String × PyJson)) (k : String) : Option PyJson :=
  (fields.find? (fun p => p.1 == k)).map Prod.snd

/-- The test `j.get("error") == "ApiErrorUnauthorized"` applied to the value
returned by `dict.get`. -/
def isUnauthorizedMarker : Option PyJson → Bool
  | some (.str s) => s == "ApiErrorUnauthorized"
  | _ => false

/-- Outcome of one call to `fetch_servers`:
`ok l` is a normal return of the node list `l`;
`authRequired` is the `raise PermissionError`;
`malformed` is the `raise RuntimeError("JSON 结构异常")`;
`crash` is any other exception escaping the function (the `AttributeError`
from calling `.get` on a non-dict, or the decoding error from `r.json()`). -/
inductive FetchResult : Type where
  | ok (servers : List PyJson) : FetchResult
  | authRequired : FetchResult
  | malformed : FetchResult
  | crash : FetchResult

/-- The part of `fetch_servers` that runs on the successfully decoded JSON
body `j`: check `j.get("error")`, then require `j.get("data")` to be a list.
Calling `.get` on a non-dict raises `AttributeError` (`crash`). -/
def fetchBody : PyJson → FetchResult
  | .obj fields =>
      if isUnauthorizedMarker (jsonGet fields "error") then .authRequired
      else
        match jsonGet fields "data" with
        | some (.arr l) => .ok l
        | _ => .malformed
  | .null => .crash
  | .bool _ => .crash
  | .num _ => .crash
  | .str _ => .crash
  | .arr _ => .crash

/-- Function `fetch_servers` (src/nezha.py lines 91–107).  The HTTP status of the
response is taken as input but — exactly as in the source — never consulted:
the function goes straight to `r.json()`, checks the body's `error` field,
and then requires `data` to be a list. -/
def fetch_servers (r : HttpResp) : FetchResult :=
  match r.body with
  | none => .crash
  | some j => fetchBody j

theorem fetch_servers_body_obj (st : Nat) (fields : List (String × PyJson)) :
    fetch_servers ⟨st, some (.obj fields)⟩ =
      if isUnauthorizedMarker (jsonGet fields "error") then .authRequired
      else
        match jsonGet fields "data" with
        | some (.arr l) => .ok l
        | _ => .malformed := rfl

/-! ## The fetch / login retry in `main` -/

/-- What one call to `fetch_servers` does, seen from `main`:
return a list, raise `PermissionError`, or raise anything else. -/
inductive FetchOutcome : Type where
  | ok (servers : List PyJson) : FetchOutcome
  | authRequired : FetchOutcome
  | fatal : FetchOutcome

/-- What the single call to `login` does: return normally, or raise
(`raise_for_status` or the missing-cookie `RuntimeError`). -/
inductive LoginOutcome : Type where
  | ok : LoginOutcome
  | fail : LoginOutcome

/-- How the fetch phase of `main` ends. -/
inductive PhaseResult : Type where
  | proceed (servers : List PyJson) : PhaseResult
  | abortAuth : PhaseResult
  | abortLogin : PhaseResult
  | abortFatal : PhaseResult

/-- Trace of the fetch phase: its result plus how many times
`fetch_servers` and `login` were called. -/
structure FetchPhaseTrace : Type where
  result : PhaseResult
  fetchCalls : Nat
  loginCalls : Nat

/-- The `try: fetch_servers / except PermissionError: login; fetch_servers`
block of `main` (src/nezha.py lines 251–257), parameterised by the outcome
the first and second calls to `fetch_servers` would have and by the outcome
of `login`.  Only `PermissionError` from the first fetch is caught; an
exception from `login` or from the second fetch propagates and aborts. -/
def fetchPhase (f1 f2 : FetchOutcome) (lg : LoginOutcome) : FetchPhaseTrace :=
  match f1 with
  | .ok s => ⟨.proceed s, 1, 0⟩
  | .fatal => ⟨.abortFatal, 1, 0⟩
  | .authRequired =>
      match lg with
      | .fail => ⟨.abortLogin, 1, 1⟩
      | .ok =>
          match f2 with
          | .ok s => ⟨.proceed s, 2, 1⟩
          | .authRequired => ⟨.abortAuth, 2, 1⟩
          | .fatal => ⟨.abortFatal, 2, 1⟩

/-! ## Claims C1–C3 -/

/-- Claim C1, counterexample.  The same underlying node data (an empty node
list) presented in the three shapes the spec says are all accepted gives
three different results: `{"data": []}` is accepted, `{"data": {"servers":
[]}}` is rejected as malformed, and a bare top-level array crashes with an
`AttributeError` (a list has no `.get`), so the three shapes are not
normalized to the identical node list. -/
theorem fetch_servers_shape_cex :
    fetch_servers ⟨200, some (.obj [("data", .arr [])])⟩ = .ok [] ∧
    fetch_servers ⟨200, some (.obj [("data", .obj [("servers", .arr [])])])⟩ = .malformed ∧
    fetch_servers ⟨200, some (.arr [])⟩ = .crash :=
  ⟨rfl, rfl, rfl⟩

/-- Claim C1, amended.  `fetch_servers` accepts exactly the shape
`{data: [...]}`: a decoded object body without the unauthorized marker
returns `ok l` iff its `data` field is the list `l`; every other object body
(including `{data: {servers: [...]}}`) raises the malformed-response error;
a bare top-level array, and any other non-object JSON body, crashes with an
`AttributeError`; a body that is not valid JSON crashes in `r.json()`. -/
theorem fetch_servers_shape_charact (st : Nat) (fields : List (String × PyJson))
    (l xs sv : List PyJson) :
    (fetch_servers ⟨st, some (.obj fields)⟩ = .ok l ↔
       isUnauthorizedMarker (jsonGet fields "error") = false ∧
       jsonGet fields "data" = some (.arr l)) ∧
    fetch_servers ⟨st, some (.obj [("data", .obj [("servers", .arr sv)])])⟩ = .malformed ∧
    fetch_servers ⟨st, some (.arr xs)⟩ = .crash ∧
    fetch_servers ⟨st, none⟩ = .crash := by
  refine ⟨?_, rfl, rfl, rfl⟩
  rw [fetch_servers_body_obj]
  cases hm : isUnauthorizedMarker (jsonGet fields "error") with
  | false =>
      cases hd : jsonGet fields "data" with
      | none => simp [hd]
      | some v => cases v <;> simp [hd]
  | true => simp

/-- Claim C2, counterexample.  A response with HTTP status 401 whose body is
the ordinary `{"data": []}` payload is not treated as an authorization
failure: `fetch_servers` returns the node list normally instead of raising
`PermissionError`, so condition (i) of the claim (status 401/403 alone
raises `AuthRequired`) fails on the code. -/
theorem fetch_servers_status_cex :
    fetch_servers ⟨401, some (.obj [("data", .arr [])])⟩ = .ok [] ∧
    fetch_servers ⟨401, some (.obj [("data", .arr [])])⟩ ≠ .authRequired := by
  refine ⟨rfl, ?_⟩
  intro h
  rw [(rfl : fetch_servers ⟨401, some (.obj [("data", .arr [])])⟩ = .ok [])] at h
  exact FetchResult.noConfusion h

/-- Claim C2, amended.  `fetch_servers` never inspects the HTTP status: its
result is the same for any two statuses given the same body, and it raises
`PermissionError` (`AuthRequired`) exactly when the decoded body is an
object whose `error` field is the string `"ApiErrorUnauthorized"` — whether
the status is 200, 401, 403 or anything else.  A 401/403 without that body
marker is not an authorization failure to this code. -/
theorem fetch_servers_status_irrelevant (st st' : Nat) (b : Option PyJson) :
    fetch_servers ⟨st, b⟩ = fetch_servers ⟨st', b⟩ ∧
    (fetch_servers ⟨st, b⟩ = .authRequired ↔
       ∃ fields, b = some (.obj fields) ∧
         isUnauthorizedMarker (jsonGet fields "error") = true) := by
  refine ⟨rfl, ?_⟩
  cases b with
  | none => simp [fetch_servers]
  | some j =>
      cases j with
      | obj fields =>
          rw [fetch_servers_body_obj]
          cases hm : isUnauthorizedMarker (jsonGet fields "error") with
          | false =>
              cases hd : jsonGet fields "data" with
              | none => simp [hd, hm]
              | some v => cases v <;> simp [hd, hm]
          | true => simp [hm]
      | null => simp [fetch_servers, fetchBody]
      | bool bb => simp [fetch_servers, fetchBody]
      | num n => simp [fetch_servers, fetchBody]
      | str s => simp [fetch_servers, fetchBody]
      | arr l => simp [fetch_servers, fetchBody]

/-- Claim C3 (confirmed).  When the first `fetch_servers` raises
`PermissionError`, `main` calls `login` exactly once whatever happens next;
when that login succeeds, `fetch_servers` is called exactly twice (the
original call plus one retry); and when the retried fetch raises
`PermissionError` again, the run aborts with that error after exactly two
fetches and one login — there is never a third fetch or a second login. -/
theorem main_auth_retry_once (f2 : FetchOutcome) (lg : LoginOutcome) :
    (fetchPhase .authRequired f2 lg).loginCalls = 1 ∧
    (fetchPhase .authRequired f2 .ok).fetchCalls = 2 ∧
    (fetchPhase .authRequired .authRequired .ok).result = .abortAuth ∧
    (fetchPhase .authRequired .authRequired .ok).fetchCalls = 2 ∧
    (fetchPhase .authRequired .authRequired .ok).loginCalls = 1 := by
  cases f2 <;> cases lg <;> exact ⟨rfl, rfl, rfl, rfl, rfl⟩

/-! ## Latency probing (`tcp_latency`, `multi_port_tcp`, `tls_latency`,
and the per-node loop body of `main`) -/

/-- Constant `TCP_PORTS = [443, 80, 22]` (src/nezha.py line 30). -/
def TCP_PORTS : List Nat := [443, 80, 22]

/-- Constant `OFFLINE_THRESHOLD = 600` seconds (src/nezha.py line 34). -/
def OFFLINE_THRESHOLD : Int := 600

/-- What the network would answer for one node: `tcp p` is the elapsed time
(ms) `socket.create_connection((ip, p))` would take when it succeeds within
the timeout, `none` when it fails; `tls` likewise for the TLS handshake of
`tls_latency`. -/
structure ProbeOracle : Type where
  tcp : Nat → Option ℚ
  tls : Option ℚ

/-- Function `tcp_latency(ip, port)` (src/nezha.py lines 111–117): the measured
connect time, or `None` on any socket error. -/
def tcp_latency (o : ProbeOracle) (port : Nat) : Option ℚ := o.tcp port

/-- Python `min` over a list, `None` for the empty list (the source guards
with `if vals else None`). -/
def pyMin : List ℚ → Option ℚ
  | [] => none
  | x :: xs => some (xs.foldl min x)

/-- Function `multi_port_tcp(ip)` (src/nezha.py lines 119–125): try every port in
`TCP_PORTS` independently, collect the successful times, return their
minimum (or `None` if none succeeded). -/
def multi_port_tcp (o : ProbeOracle) : Option ℚ :=
  pyMin (TCP_PORTS.filterMap (tcp_latency o))

/-- Function `tls_latency(ip)` (src/nezha.py lines 127–135). -/
def tls_latency (o : ProbeOracle) : Option ℚ := o.tls

/-- Python truthiness of the `host` value: `None` and `""` are falsy. -/
def pyTruthyStr : Option String → Bool
  | none => false
  | some s => !(s == "")

/-- Python truthiness of a `float | None` value: `None` and `0.0` are
falsy.  This is the test in `tls_latency(ip) if tcp else None`. -/
def pyTruthyQ : Option ℚ → Bool
  | none => false
  | some q => decide (q ≠ 0)

/-- Python `a or b` for `a : float | None`: `b` when `a` is `None` or
`0.0`, else `a`. -/
def pyOrQ : Option ℚ → ℚ → ℚ
  | some q, b => if q = 0 then b else q
  | none, b => b

/-- Python `round(x, 1)` on an exact rational: round `10*x` half-to-even to
an integer (CPython's `round` uses banker's rounding), divide by 10. -/
def roundHE (q : ℚ) : ℤ :=
  if q - ⌊q⌋ < 1/2 then ⌊q⌋
  else if 1/2 < q - ⌊q⌋ then ⌊q⌋ + 1
  else if ⌊q⌋ % 2 = 0 then ⌊q⌋ else ⌊q⌋ + 1

/-- Python `round(x, 1)` (used at src/nezha.py line 274). -/
def pyRound1 (q : ℚ) : ℚ := (roundHE (10 * q) : ℚ) / 10

/-- The value `tls or tcp or 0` of src/nezha.py lines 273–274, with
`tls = tls_latency(ip) if tcp else None`: the TLS time when a TLS handshake
was attempted and succeeded with a truthy time, else the minimum TCP time
when truthy, else `0`. -/
def selectedLatency (o : ProbeOracle) : ℚ :=
  pyOrQ (if pyTruthyQ (multi_port_tcp o) then tls_latency o else none)
        (pyOrQ (multi_port_tcp o) 0)

/-- One node as consumed by the loop in `main`: `host` is `s.get("host")`
(`None` or a string, possibly empty), `lastActive` is
`parse_last_active(s.get("last_active"))`, already normalized to epoch
seconds. -/
structure Node : Type where
  name : String
  host : Option String
  lastActive : Int

/-- What the per-node loop body did: the latency written into
`latency_map`, how many TCP connects were attempted, and whether a TLS
handshake was attempted. -/
structure ProbeTrace : Type where
  latency : ℚ
  tcpAttempts : Nat
  tlsAttempted : Bool

/-- The body of the per-node loop of `main` (src/nezha.py lines 262–276):
if the host is falsy or the node's age exceeds `OFFLINE_THRESHOLD`, record
latency `0` and continue without touching the network; otherwise run
`multi_port_tcp` (which attempts every port in `TCP_PORTS`), run
`tls_latency` only when the TCP result is truthy, and record
`round(tls or tcp or 0, 1)`. -/
def probeNode (now : Int) (n : Node) (o : ProbeOracle) : ProbeTrace :=
  if pyTruthyStr n.host = false ∨ OFFLINE_THRESHOLD < now - n.lastActive then
    ⟨0, 0, false⟩
  else
    ⟨pyRound1 (selectedLatency o), TCP_PORTS.length, pyTruthyQ (multi_port_tcp o)⟩

theorem probeNode_online (now : Int) (n : Node) (o : ProbeOracle)
    (hh : pyTruthyStr n.host = true) (hf : now - n.lastActive ≤ OFFLINE_THRESHOLD) :
    probeNode now n o =
      ⟨pyRound1 (selectedLatency o), TCP_PORTS.length, pyTruthyQ (multi_port_tcp o)⟩ := by
  unfold probeNode
  rw [if_neg]
  rintro (h1 | h2)
  · rw [hh] at h1; exact Bool.noConfusion h1
  · exact absurd h2 (not_lt.mpr hf)

theorem foldl_min_le (xs : List ℚ) (x : ℚ) :
    xs.foldl min x ≤ x ∧ ∀ v ∈ xs, xs.foldl min x ≤ v := by
  induction xs generalizing x with
  | nil => exact ⟨le_refl x, by intro v hv; cases hv⟩
  | cons a t ih =>
      rw [List.foldl_cons]
      refine ⟨le_trans (ih (min x a)).1 (min_le_left x a), ?_⟩
      intro v hv
      rcases List.mem_cons.mp hv with rfl | hv
      · exact le_trans (ih (min x v)).1 (min_le_right x v)
      · exact (ih (min x a)).2 v hv

theorem foldl_min_mem (xs : List ℚ) (x : ℚ) :
    xs.foldl min x = x ∨ xs.foldl min x ∈ xs := by
  induction xs generalizing x with
  | nil => exact Or.inl rfl
  | cons a t ih =>
      rcases ih (min x a) with h | h
      · rcases min_choice x a with hm | hm
        · left; rw [List.foldl_cons, h]; exact hm
        · right
          refine List.mem_cons.mpr (Or.inl ?_)
          rw [List.foldl_cons, h]; exact hm
      · right
        refine List.mem_cons.mpr (Or.inr ?_)
        rw [List.foldl_cons]; exact h

theorem pyMin_eq_some (l : List ℚ) (m : ℚ) (h : pyMin l = some m) :
    m ∈ l ∧ ∀ v ∈ l, m ≤ v := by
  cases l with
  | nil => exact absurd h (by simp [pyMin])
  | cons x xs =>
      have hm : xs.foldl min x = m := by
        unfold pyMin at h
        injection h
      constructor
      · rcases foldl_min_mem xs x with h1 | h1
        · rw [← hm, h1]; exact List.mem_cons_self x xs
        · rw [← hm]; exact List.mem_cons.mpr (Or.inr h1)
      · intro v hv
        rcases List.mem_cons.mp hv with rfl | hv
        · rw [← hm]; exact (foldl_min_le xs v).1
        · rw [← hm]; exact (foldl_min_le xs x).2 v hv

theorem multi_port_tcp_pos (o : ProbeOracle)
    (htcp : ∀ p q, o.tcp p = some q → 0 < q) :
    ∀ mq, multi_port_tcp o = some mq → 0 < mq := by
  intro mq hmq
  have hmem := (pyMin_eq_some _ _ hmq).1
  rcases List.mem_filterMap.mp hmem with ⟨p, -, hp⟩
  exact htcp p mq hp

theorem roundHE_pos (x : ℚ) (h : 1/2 < x) : 1 ≤ roundHE x := by
  have h1 : (⌊x⌋ : ℚ) ≤ x := Int.floor_le x
  have h2 : x < ⌊x⌋ + 1 := Int.lt_floor_add_one x
  have h0 : (0:ℤ) ≤ ⌊x⌋ := Int.floor_nonneg.mpr (by linarith)
  unfold roundHE
  split
  · rename_i hlt
    by_contra hc
    push_neg at hc
    have hle : ⌊x⌋ ≤ 0 := by omega
    have hleq : (⌊x⌋ : ℚ) ≤ 0 := by exact_mod_cast hle
    linarith
  · split
    · omega
    · rename_i hge hgt
      push_neg at hge hgt
      have heq : x - ⌊x⌋ = 1/2 := le_antisymm hgt hge
      have hfq : (0:ℚ) < ⌊x⌋ := by linarith
      have hfz : (0:ℤ) < ⌊x⌋ := by exact_mod_cast hfq
      split <;> omega

theorem pyRound1_pos (q : ℚ) (h : 1/20 < q) : 0 < pyRound1 q := by
  have hx : 1/2 < 10 * q := by linarith
  have h1 : (1:ℤ) ≤ roundHE (10 * q) := roundHE_pos (10 * q) hx
  have h1q : (1:ℚ) ≤ (roundHE (10 * q) : ℚ) := by exact_mod_cast h1
  unfold pyRound1
  linarith

theorem pyRound1_zero : pyRound1 0 = 0 := by
  norm_num [pyRound1, roundHE]

/-! ## Claims C6–C8 -/

/-- Claim C6 (confirmed).  For a node whose `host` is falsy (absent or
empty) or whose age `now - lastActiveAt` exceeds `OFFLINE_THRESHOLD`, the
loop body records latency `0` and performs no socket operation at all: zero
TCP connect attempts and no TLS handshake. -/
theorem probe_offline_no_socket (now : Int) (n : Node) (o : ProbeOracle)
    (h : pyTruthyStr n.host = false ∨ OFFLINE_THRESHOLD < now - n.lastActive) :
    probeNode now n o = ⟨0, 0, false⟩ := by
  unfold probeNode
  rw [if_pos h]

/-- Witness for `probe_offline_no_socket`: a node with no `host` field is
reported with latency 0, zero TCP attempts and no TLS attempt, even though
the network oracle would have answered. -/
theorem probe_offline_no_socket_witness :
    probeNode 0 ⟨"b", none, 0⟩ ⟨fun _ => some 100, some 150⟩ = ⟨0, 0, false⟩ :=
  probe_offline_no_socket 0 ⟨"b", none, 0⟩ ⟨fun _ => some 100, some 150⟩ (Or.inl rfl)

/-- An oracle on which every TCP connect succeeds in literally zero
measured milliseconds (a degenerate but possible `time.time()` reading). -/
def zeroTcpOracle : ProbeOracle := ⟨fun _ => some 0, some 5⟩

/-- Claim C7, counterexample.  With `zeroTcpOracle`, every TCP connect
succeeds (the minimum is `some 0`), yet no TLS handshake is attempted:
`tls_latency(ip) if tcp else None` tests Python truthiness of the float,
and `0.0` is falsy.  So "the TLS handshake is attempted if and only if some
TCP connect succeeded" fails on the code. -/
theorem probe_tls_gate_cex :
    (multi_port_tcp zeroTcpOracle).isSome = true ∧
    (probeNode 0 ⟨"a", some "h", 0⟩ zeroTcpOracle).tlsAttempted = false := by
  constructor
  · rfl
  · rw [probeNode_online 0 ⟨"a", some "h", 0⟩ zeroTcpOracle rfl (by decide)]
    simp [multi_port_tcp, tcp_latency, zeroTcpOracle, TCP_PORTS, pyMin, pyTruthyQ]

/-- Claim C7, amended.  Provided every successful socket measurement is a
positive time (which excludes the degenerate exactly-zero reading that
Python truthiness mistakes for a failure), the reported value is
`round(·,1)` of: the TLS handshake time when a TLS handshake was attempted
(equivalently, when some TCP connect succeeded) and succeeded; else the
minimum TCP connect time when some TCP connect succeeded; else the
unreachable sentinel 0.  The TCP minimum is over the ports tried
independently: it is a member of the successful measurements and is ≤ every
one of them, so a slow port never raises the reported value. -/
theorem probe_latency_selection (now : Int) (n : Node) (o : ProbeOracle)
    (hh : pyTruthyStr n.host = true)
    (hf : now - n.lastActive ≤ OFFLINE_THRESHOLD)
    (htcp : ∀ p q, o.tcp p = some q → 0 < q)
    (htls : ∀ q, o.tls = some q → 0 < q) :
    ((probeNode now n o).tlsAttempted = (multi_port_tcp o).isSome) ∧
    (∀ tq, o.tls = some tq → (multi_port_tcp o).isSome = true →
       (probeNode now n o).latency = pyRound1 tq) ∧
    (∀ mq, multi_port_tcp o = some mq → o.tls = none →
       (probeNode now n o).latency = pyRound1 mq) ∧
    (multi_port_tcp o = none → (probeNode now n o).latency = 0) ∧
    (∀ mq, multi_port_tcp o = some mq →
       mq ∈ TCP_PORTS.filterMap (tcp_latency o) ∧
       ∀ v ∈ TCP_PORTS.filterMap (tcp_latency o), mq ≤ v) := by
  rw [probeNode_online now n o hh hf]
  have hpos := multi_port_tcp_pos o htcp
  refine ⟨?_, ?_, ?_, ?_, ?_⟩
  · show pyTruthyQ (multi_port_tcp o) = (multi_port_tcp o).isSome
    cases hmt : multi_port_tcp o with
    | none => simp [pyTruthyQ]
    | some m => simp [pyTruthyQ, ne_of_gt (hpos m hmt)]
  · intro tq htq hsome
    rcases Option.isSome_iff_exists.mp hsome with ⟨mq, hmq⟩
    show pyRound1 (selectedLatency o) = pyRound1 tq
    have hsel : selectedLatency o = tq := by
      unfold selectedLatency
      rw [hmq]
      simp [pyTruthyQ, ne_of_gt (hpos mq hmq), tls_latency, htq, pyOrQ,
        ne_of_gt (htls tq htq)]
    rw [hsel]
  · intro mq hmq htlsn
    show pyRound1 (selectedLatency o) = pyRound1 mq
    have hsel : selectedLatency o = mq := by
      unfold selectedLatency
      rw [hmq]
      simp [pyTruthyQ, ne_of_gt (hpos mq hmq), tls_latency, htlsn, pyOrQ,
        ne_of_gt (hpos mq hmq)]
    rw [hsel]
  · intro hmn
    show pyRound1 (selectedLatency o) = 0
    have hsel : selectedLatency o = 0 := by
      unfold selectedLatency
      rw [hmn]
      simp [pyTruthyQ, pyOrQ]
    rw [hsel, pyRound1_zero]
  · intro mq hmq
    exact pyMin_eq_some _ _ hmq

/-- A well-behaved oracle: every TCP connect takes 100 ms, the TLS
handshake takes 150 ms. -/
def posOracle : ProbeOracle := ⟨fun _ => some 100, some 150⟩

theorem posOracle_tcp_pos : ∀ p q, posOracle.tcp p = some q → 0 < q := by
  intro p q hq
  cases hq
  norm_num

theorem posOracle_tls_pos : ∀ q, posOracle.tls = some q → 0 < q := by
  intro q hq
  cases hq
  norm_num

/-- Witness for `probe_latency_selection` at a concrete node and oracle:
the TLS handshake is attempted (some TCP connect succeeded) and the
reported latency is `round(150, 1)`, the TLS time. -/
theorem probe_latency_selection_witness :
    (probeNode 0 ⟨"a", some "h", 0⟩ posOracle).tlsAttempted =
      (multi_port_tcp posOracle).isSome ∧
    (probeNode 0 ⟨"a", some "h", 0⟩ posOracle).latency = pyRound1 150 := by
  have h := probe_latency_selection 0 ⟨"a", some "h", 0⟩ posOracle rfl (by decide)
    posOracle_tcp_pos posOracle_tls_pos
  exact ⟨h.1, h.2.1 150 rfl rfl⟩

/-- An oracle on which every TCP connect succeeds in 0.04 ms and the TLS
handshake fails. -/
def tinyTcpOracle : ProbeOracle := ⟨fun _ => some (1/25), none⟩

/-- Claim C8, counterexample.  With `tinyTcpOracle` the probe measurement
succeeds — the minimum TCP time is `some (1/25)`, i.e. 0.04 ms > 0 — yet
the recorded latency is `round(0.04, 1) = 0.0`: the rounding of a
successful measurement produces exactly the unreachable/offline sentinel
`0`, so 0 is not reserved for the sentinel. -/
theorem probe_round_to_zero_cex :
    multi_port_tcp tinyTcpOracle = some (1/25) ∧
    (0 : ℚ) < 1/25 ∧
    (probeNode 0 ⟨"a", some "h", 0⟩ tinyTcpOracle).latency = 0 := by
  have hmt : multi_port_tcp tinyTcpOracle = some (1/25) := by
    simp [multi_port_tcp, tcp_latency, tinyTcpOracle, TCP_PORTS, pyMin]
  refine ⟨hmt, by norm_num, ?_⟩
  rw [probeNode_online 0 ⟨"a", some "h", 0⟩ tinyTcpOracle rfl (by decide)]
  have hsel : selectedLatency tinyTcpOracle = 1/25 := by
    unfold selectedLatency
    rw [hmt]
    simp [pyTruthyQ, tls_latency, tinyTcpOracle, pyOrQ]
  show pyRound1 (selectedLatency tinyTcpOracle) = 0
  rw [hsel]
  have hfl : (⌊(10 : ℚ) * (1/25)⌋ : ℤ) = 0 := by norm_num
  unfold pyRound1 roundHE
  rw [hfl]
  norm_num

/-- Claim C8, amended.  For an online node, the recorded latency is
positive whenever the selected measured time (`tls or tcp or 0` before
rounding) exceeds 0.05 ms; a successful measurement of at most 0.05 ms is
rounded to `0.0` and is indistinguishable from the unreachable/offline
sentinel. -/
theorem probe_positive_latency (now : Int) (n : Node) (o : ProbeOracle)
    (hh : pyTruthyStr n.host = true)
    (hf : now - n.lastActive ≤ OFFLINE_THRESHOLD)
    (hsel : 1/20 < selectedLatency o) :
    0 < (probeNode now n o).latency := by
  rw [probeNode_online now n o hh hf]
  exact pyRound1_pos _ hsel

/-- Witness for `probe_positive_latency`: with 100 ms TCP connects and a
150 ms TLS handshake the recorded latency is positive. -/
theorem probe_positive_latency_witness :
    0 < (probeNode 0 ⟨"a", some "h", 0⟩ posOracle).latency := by
  apply probe_positive_latency 0 ⟨"a", some "h", 0⟩ posOracle rfl (by decide)
  have hmt : multi_port_tcp posOracle = some 100 := by
    simp [multi_port_tcp, tcp_latency, posOracle, TCP_PORTS, pyMin]
  unfold selectedLatency
  rw [hmt]
  simp [pyTruthyQ, tls_latency, posOracle, pyOrQ]
  norm_num

/-! ## The time-series store (`record`, src/nezha.py lines 139–151)

The persisted document is a Python dict: an insertion-ordered sequence of
key/value pairs with pairwise-distinct keys.  The key type is any linear
order; the source instantiates it with `"%Y-%m-%d %H:%M"` timestamp
strings, on which Python's lexicographic `sorted(data)` coincides with
chronological order (the format is zero-padded and fixed-width). -/

/-- Constant `MAX_POINTS = 24` (src/nezha.py line 35). -/
def MAX_POINTS : Nat := 24

/-- A Python dict as json.loads / json.dumps sees it: insertion-ordered
association list with pairwise-distinct keys. -/
abbrev TickDict (κ α : Type) := List (κ × α)

/-- The dict's key sequence in insertion order (`list(data.keys())`). -/
def dictKeys {κ α : Type} (d : TickDict κ α) : List κ := d.map Prod.fst

/-- Assignment `data[k] = v` on a dict: overwrite in place when `k` is present
(keeping its position), else append at the end. -/
def dictInsert {κ α : Type} [DecidableEq κ] (d : TickDict κ α) (k : κ) (v : α) :
    TickDict κ α :=
  if k ∈ dictKeys d then d.map (fun p => if p.1 = k then (k, v) else p)
  else d ++ [(k, v)]

/-- Python `sorted(data)`: the keys in ascending order. -/
def sortedKeys {κ α : Type} [LinearOrder κ] (d : TickDict κ α) : List κ :=
  List.insertionSort (· ≤ ·) (dictKeys d)

/-- Slice `sorted(data)[:-MAX_POINTS]`: the keys to delete — everything except
the `MAX_POINTS` greatest (Python's negative-stop slice keeps the last
`MAX_POINTS`; when the dict has at most `MAX_POINTS` keys the slice is
empty, matching truncated Nat subtraction). -/
def staleKeys {κ α : Type} [LinearOrder κ] (d : TickDict κ α) : List κ :=
  (sortedKeys d).take ((dictKeys d).length - MAX_POINTS)

/-- Loop `for k in sorted(data)[:-MAX_POINTS]: del data[k]`. -/
def pruneOld {κ α : Type} [LinearOrder κ] (d : TickDict κ α) : TickDict κ α :=
  d.filter (fun p => !decide (p.1 ∈ staleKeys d))

/-- The pure core of `record`: insert (or overwrite) the sample at tick
`ts`, then delete the oldest keys beyond `MAX_POINTS`. -/
def recordPure {κ α : Type} [LinearOrder κ] (d : TickDict κ α) (ts : κ) (m : α) :
    TickDict κ α :=
  pruneOld (dictInsert d ts m)

theorem dictKeys_length {κ α : Type} (d : TickDict κ α) :
    (dictKeys d).length = d.length := List.length_map d Prod.fst

theorem dictKeys_dictInsert {κ α : Type} [DecidableEq κ] (d : TickDict κ α) (k : κ) (v : α) :
    dictKeys (dictInsert d k v) =
      if k ∈ dictKeys d then dictKeys d else dictKeys d ++ [k] := by
  unfold dictInsert
  by_cases hmem : k ∈ dictKeys d
  · simp only [if_pos hmem]
    unfold dictKeys
    rw [List.map_map]
    apply List.map_congr_left
    intro p hp
    by_cases hpk : p.1 = k
    · simp [hpk]
    · simp [hpk]
  · simp only [if_neg hmem]
    unfold dictKeys
    rw [List.map_append]
    rfl

theorem nodup_dictKeys_dictInsert {κ α : Type} [DecidableEq κ] (d : TickDict κ α)
    (k : κ) (v : α) (h : (dictKeys d).Nodup) :
    (dictKeys (dictInsert d k v)).Nodup := by
  rw [dictKeys_dictInsert]
  by_cases hmem : k ∈ dictKeys d
  · simp only [if_pos hmem]; exact h
  · simp only [if_neg hmem]
    rw [List.nodup_append]
    refine ⟨h, List.nodup_singleton k, ?_⟩
    intro a ha hb
    rw [List.mem_singleton] at hb
    subst hb
    exact hmem ha

theorem mem_dictKeys_dictInsert_self {κ α : Type} [DecidableEq κ] (d : TickDict κ α)
    (k : κ) (v : α) : k ∈ dictKeys (dictInsert d k v) := by
  rw [dictKeys_dictInsert]
  by_cases hmem : k ∈ dictKeys d
  · simp only [if_pos hmem]; exact hmem
  · simp only [if_neg hmem]
    exact List.mem_append.mpr (Or.inr (List.mem_singleton_self k))

theorem length_dictInsert {κ α : Type} [DecidableEq κ] (d : TickDict κ α) (k : κ) (v : α) :
    (dictInsert d k v).length = if k ∈ dictKeys d then d.length else d.length + 1 := by
  unfold dictInsert
  by_cases hmem : k ∈ dictKeys d
  · simp only [if_pos hmem, List.length_map]
  · simp only [if_neg hmem, List.length_append, List.length_singleton]

theorem sortedKeys_sorted {κ α : Type} [LinearOrder κ] (d : TickDict κ α) :
    List.Sorted (· ≤ ·) (sortedKeys d) :=
  List.sorted_insertionSort _ _

theorem sortedKeys_perm {κ α : Type} [LinearOrder κ] (d : TickDict κ α) :
    (sortedKeys d).Perm (dictKeys d) :=
  List.perm_insertionSort _ _

theorem dictKeys_pruneOld {κ α : Type} [LinearOrder κ] (d : TickDict κ α) :
    dictKeys (pruneOld d) = (dictKeys d).filter (fun a => !decide (a ∈ staleKeys d)) := by
  unfold pruneOld dictKeys
  rw [List.filter_map]
  rfl

theorem filter_not_mem_append {κ : Type} [DecidableEq κ] (T R : List κ)
    (hdisj : ∀ a ∈ R, a ∉ T) :
    (T ++ R).filter (fun a => !decide (a ∈ T)) = R := by
  rw [List.filter_append]
  have h1 : T.filter (fun a => !decide (a ∈ T)) = [] := by
    rw [List.filter_eq_nil_iff]
    intro a ha
    simp [ha]
  have h2 : R.filter (fun a => !decide (a ∈ T)) = R := by
    rw [List.filter_eq_self]
    intro a ha
    simp [hdisj a ha]
  rw [h1, h2, List.nil_append]

theorem filter_not_mem_take_eq_drop {κ : Type} [DecidableEq κ] (S : List κ) (m : Nat)
    (h : S.Nodup) :
    S.filter (fun a => !decide (a ∈ S.take m)) = S.drop m := by
  have hdisj : ∀ a ∈ S.drop m, a ∉ S.take m := by
    have hnodup := h
    rw [← List.take_append_drop m S, List.nodup_append] at hnodup
    exact fun a ha hb => hnodup.2.2 hb ha
  calc S.filter (fun a => !decide (a ∈ S.take m))
      = (S.take m ++ S.drop m).filter (fun a => !decide (a ∈ S.take m)) := by
        rw [List.take_append_drop]
    _ = S.drop m := filter_not_mem_append _ _ hdisj

theorem recordPure_keys_perm {κ α : Type} [LinearOrder κ] (d : TickDict κ α)
    (ts : κ) (m : α) (h : (dictKeys d).Nodup) :
    (dictKeys (recordPure d ts m)).Perm
      ((sortedKeys (dictInsert d ts m)).drop
        ((dictKeys (dictInsert d ts m)).length - MAX_POINTS)) := by
  have h1 : (dictKeys (dictInsert d ts m)).Nodup := nodup_dictKeys_dictInsert d ts m h
  have hS : (sortedKeys (dictInsert d ts m)).Nodup :=
    (sortedKeys_perm (dictInsert d ts m)).nodup_iff.mpr h1
  have hperm : ((dictKeys (dictInsert d ts m)).filter
        (fun a => !decide (a ∈ staleKeys (dictInsert d ts m)))).Perm
      ((sortedKeys (dictInsert d ts m)).filter
        (fun a => !decide (a ∈ staleKeys (dictInsert d ts m)))) :=
    List.Perm.filter _ (sortedKeys_perm (dictInsert d ts m)).symm
  have hfd : (sortedKeys (dictInsert d ts m)).filter
        (fun a => !decide (a ∈ staleKeys (dictInsert d ts m)))
      = (sortedKeys (dictInsert d ts m)).drop
          ((dictKeys (dictInsert d ts m)).length - MAX_POINTS) :=
    filter_not_mem_take_eq_drop (sortedKeys (dictInsert d ts m))
      ((dictKeys (dictInsert d ts m)).length - MAX_POINTS) hS
  rw [hfd] at hperm
  show (dictKeys (pruneOld (dictInsert d ts m))).Perm _
  rw [dictKeys_pruneOld]
  exact hperm

theorem recordPure_length {κ α : Type} [LinearOrder κ] (d : TickDict κ α)
    (ts : κ) (m : α) (h : (dictKeys d).Nodup) :
    (recordPure d ts m).length
      = (dictInsert d ts m).length - ((dictInsert d ts m).length - MAX_POINTS) := by
  have hperm := recordPure_keys_perm d ts m h
  have hS_len : (sortedKeys (dictInsert d ts m)).length
      = (dictKeys (dictInsert d ts m)).length :=
    (sortedKeys_perm (dictInsert d ts m)).length_eq
  calc (recordPure d ts m).length
      = (dictKeys (recordPure d ts m)).length := (dictKeys_length _).symm
    _ = ((sortedKeys (dictInsert d ts m)).drop
          ((dictKeys (dictInsert d ts m)).length - MAX_POINTS)).length := hperm.length_eq
    _ = (sortedKeys (dictInsert d ts m)).length
          - ((dictKeys (dictInsert d ts m)).length - MAX_POINTS) := by
        rw [List.length_drop]
    _ = (dictInsert d ts m).length - ((dictInsert d ts m).length - MAX_POINTS) := by
        rw [hS_len, dictKeys_length]

theorem nodup_dictKeys_recordPure {κ α : Type} [LinearOrder κ] (d : TickDict κ α)
    (ts : κ) (m : α) (h : (dictKeys d).Nodup) :
    (dictKeys (recordPure d ts m)).Nodup := by
  have h1 := nodup_dictKeys_dictInsert d ts m h
  show (dictKeys (pruneOld (dictInsert d ts m))).Nodup
  rw [dictKeys_pruneOld]
  exact List.Nodup.filter _ h1

theorem dictInsert_value {κ α : Type} [DecidableEq κ] (d : TickDict κ α) (k : κ) (v : α) :
    ∀ p ∈ dictInsert d k v, p.1 = k → p.2 = v := by
  intro p hp hpk
  unfold dictInsert at hp
  by_cases hmem : k ∈ dictKeys d
  · rw [if_pos hmem] at hp
    rcases List.mem_map.mp hp with ⟨q, hq, hqe⟩
    by_cases hqk : q.1 = k
    · rw [if_pos hqk] at hqe
      rw [← hqe]
    · rw [if_neg hqk] at hqe
      rw [← hqe] at hpk
      exact absurd hpk hqk
  · rw [if_neg hmem] at hp
    rcases List.mem_append.mp hp with hp | hp
    · exfalso
      apply hmem
      rw [← hpk]
      exact List.mem_map.mpr ⟨p, hp, rfl⟩
    · rw [List.mem_singleton] at hp
      rw [hp]

theorem recordPure_last_write_wins {κ α : Type} [LinearOrder κ]
    (d : TickDict κ α) (ts : κ) (m : α) :
    ∀ p ∈ recordPure d ts m, p.1 = ts → p.2 = m := by
  intro p hp hpk
  have hp' : p ∈ dictInsert d ts m := List.mem_of_mem_filter hp
  exact dictInsert_value d ts m p hp' hpk

/-! ## Claims C4 and C5 -/

/-- Claim C4 (confirmed).  Starting from any stored dict with distinct keys
(the invariant of a decoded JSON object), after one `record` step the
length is at most `MAX_POINTS`; the retained ticks, read in chronological
order, are exactly the suffix of the sorted tick set that survives deleting
the oldest `n - MAX_POINTS` keys — i.e. the most recent
`min(n, MAX_POINTS)` distinct ticks; and every deleted tick is strictly
older than every retained tick (oldest entries are evicted first). -/
theorem record_bounded_and_recent {κ α : Type} [LinearOrder κ] (d : TickDict κ α)
    (ts : κ) (m : α) (h : (dictKeys d).Nodup) :
    (recordPure d ts m).length ≤ MAX_POINTS ∧
    sortedKeys (recordPure d ts m)
      = (sortedKeys (dictInsert d ts m)).drop
          ((dictKeys (dictInsert d ts m)).length - MAX_POINTS) ∧
    (∀ a ∈ staleKeys (dictInsert d ts m), ∀ b ∈ dictKeys (recordPure d ts m), a < b) := by
  have h1 : (dictKeys (dictInsert d ts m)).Nodup := nodup_dictKeys_dictInsert d ts m h
  have hS : (sortedKeys (dictInsert d ts m)).Nodup :=
    (sortedKeys_perm (dictInsert d ts m)).nodup_iff.mpr h1
  have hperm := recordPure_keys_perm d ts m h
  refine ⟨?_, ?_, ?_⟩
  · rw [recordPure_length d ts m h]
    omega
  · have hsorted1 : List.Sorted (· ≤ ·) (sortedKeys (recordPure d ts m)) :=
      sortedKeys_sorted _
    have hsorted2 : List.Sorted (· ≤ ·)
        ((sortedKeys (dictInsert d ts m)).drop
          ((dictKeys (dictInsert d ts m)).length - MAX_POINTS)) :=
      List.Pairwise.sublist (List.drop_sublist _ _) (sortedKeys_sorted (dictInsert d ts m))
    exact List.eq_of_perm_of_sorted
      ((sortedKeys_perm (recordPure d ts m)).trans hperm) hsorted1 hsorted2
  · have hlt : List.Sorted (· < ·) (sortedKeys (dictInsert d ts m)) :=
      (sortedKeys_sorted (dictInsert d ts m)).lt_of_le hS
    have hsp : List.Pairwise (· < ·)
        ((sortedKeys (dictInsert d ts m)).take
            ((dictKeys (dictInsert d ts m)).length - MAX_POINTS)
          ++ (sortedKeys (dictInsert d ts m)).drop
            ((dictKeys (dictInsert d ts m)).length - MAX_POINTS)) := by
      rw [List.take_append_drop]
      exact hlt
    have hrel := (List.pairwise_append.mp hsp).2.2
    intro a ha b hb
    exact hrel a ha b (hperm.mem_iff.mp hb)

/-- Witness for `record_bounded_and_recent` at a concrete store: one prior
tick `1` with sample `42`, recording sample `0` at tick `2`
(the spec's end-to-end scenario with capacity 24). -/
theorem record_bounded_and_recent_witness :
    (recordPure [((1:Nat), (42:Nat))] 2 0).length ≤ MAX_POINTS ∧
    sortedKeys (recordPure [((1:Nat), (42:Nat))] 2 0)
      = (sortedKeys (dictInsert [((1:Nat), (42:Nat))] 2 0)).drop
          ((dictKeys (dictInsert [((1:Nat), (42:Nat))] 2 0)).length - MAX_POINTS) ∧
    (∀ a ∈ staleKeys (dictInsert [((1:Nat), (42:Nat))] 2 0),
       ∀ b ∈ dictKeys (recordPure [((1:Nat), (42:Nat))] 2 0), a < b) :=
  record_bounded_and_recent [((1:Nat), (42:Nat))] 2 0 (by decide)

/-- Claim C5 (confirmed).  Recording a second sample under the same tick
key leaves the series length unchanged — the second call overwrites
(last write wins: any retained entry keyed by that tick holds the newest
sample) and never adds an entry. -/
theorem record_same_tick_idempotent_length {κ α : Type} [LinearOrder κ]
    (d : TickDict κ α) (ts : κ) (m m' : α) (h : (dictKeys d).Nodup) :
    (recordPure (recordPure d ts m) ts m').length = (recordPure d ts m).length ∧
    (∀ p ∈ recordPure (recordPure d ts m) ts m', p.1 = ts → p.2 = m') := by
  refine ⟨?_, recordPure_last_write_wins _ _ _⟩
  have hn1 : (dictKeys (recordPure d ts m)).Nodup := nodup_dictKeys_recordPure d ts m h
  have hlen1 : (recordPure d ts m).length
      = (dictInsert d ts m).length - ((dictInsert d ts m).length - MAX_POINTS) :=
    recordPure_length d ts m h
  have hlen2 : (recordPure (recordPure d ts m) ts m').length
      = (dictInsert (recordPure d ts m) ts m').length
        - ((dictInsert (recordPure d ts m) ts m').length - MAX_POINTS) :=
    recordPure_length (recordPure d ts m) ts m' hn1
  by_cases hmem : ts ∈ dictKeys (recordPure d ts m)
  · have hi : (dictInsert (recordPure d ts m) ts m').length = (recordPure d ts m).length := by
      rw [length_dictInsert, if_pos hmem]
    rw [hlen2, hi, hlen1]
    omega
  · have hmem1 : ts ∈ dictKeys (dictInsert d ts m) := mem_dictKeys_dictInsert_self d ts m
    have hstale : ts ∈ staleKeys (dictInsert d ts m) := by
      by_contra hns
      apply hmem
      show ts ∈ dictKeys (pruneOld (dictInsert d ts m))
      rw [dictKeys_pruneOld, List.mem_filter]
      exact ⟨hmem1, by simp [hns]⟩
    have hmm : 0 < (dictKeys (dictInsert d ts m)).length - MAX_POINTS := by
      by_contra hz
      push_neg at hz
      have hzero : (dictKeys (dictInsert d ts m)).length - MAX_POINTS = 0 :=
        Nat.le_zero.mp hz
      unfold staleKeys at hstale
      rw [hzero, List.take_zero] at hstale
      exact absurd hstale (List.not_mem_nil ts)
    have hkl : (dictKeys (dictInsert d ts m)).length = (dictInsert d ts m).length :=
      dictKeys_length _
    have hi : (dictInsert (recordPure d ts m) ts m').length
        = (recordPure d ts m).length + 1 := by
      rw [length_dictInsert, if_neg hmem]
    rw [hlen2, hi, hlen1]
    omega

/-- Witness for `record_same_tick_idempotent_length` at a concrete store:
recording twice under tick `2` keeps the length of the once-recorded store,
and the stored value for tick `2` is the second sample. -/
theorem record_same_tick_idempotent_length_witness :
    (recordPure (recordPure [((1:Nat), (10:Nat))] 2 20) 2 30).length
      = (recordPure [((1:Nat), (10:Nat))] 2 20).length ∧
    (∀ p ∈ recordPure (recordPure [((1:Nat), (10:Nat))] 2 20) 2 30,
       p.1 = 2 → p.2 = 30) :=
  record_same_tick_idempotent_length [((1:Nat), (10:Nat))] 2 20 30 (by decide)

/-! ## Persistence (`record`'s file handling) and the SVG renderer
(`generate_svg`, src/nezha.py lines 162–223) -/

/-- Per-tick samples: node name → latency (ms). -/
abbrev LatencyMap := List (String × ℚ)

/-- State of the persisted `nezha_latency.json` file: absent, present but
unreadable/not-JSON (`json.loads` raises), or a decoded dict. -/
inductive FileState (α : Type) : Type where
  | missing : FileState α
  | corrupt : FileState α
  | good (d : α) : FileState α

/-- The load step shared by `record` and `generate_svg`: a missing file
yields the empty dict, a corrupt one raises (`Except.error`). -/
def loadTickData (fs : FileState (TickDict String LatencyMap)) :
    Except Unit (TickDict String LatencyMap) :=
  match fs with
  | .missing => .ok []
  | .corrupt => .error ()
  | .good d => .ok d

/-- Function `record(latency_map)` (src/nezha.py lines 139–151) end to end: load the
persisted dict (`data = {}` only when the file does not exist — a corrupt
file raises out of `json.loads`), then insert at the current tick and prune;
the returned dict is what is written back. -/
def recordRun (fs : FileState (TickDict String LatencyMap)) (ts : String)
    (m : LatencyMap) : Except Unit (TickDict String LatencyMap) :=
  (loadTickData fs).map (fun d => recordPure d ts m)

/-- Canvas constants of `generate_svg` (src/nezha.py lines 171–173). -/
def WIDTH : Nat := 720

def HEIGHT : Nat := 260

def PADDING : Nat := 40

/-- Python `d.get(k, default)`. -/
def dictGetD {α : Type} (d : List (String × α)) (k : String) (dflt : α) : α :=
  match d.find? (fun p => p.1 == k) with
  | some p => p.2
  | none => dflt

/-- Assignment `keys = list(data.keys())[-MAX_POINTS:]`: the last `MAX_POINTS` keys in
insertion order. -/
def svgKeys (data : TickDict String LatencyMap) : List String :=
  (dictKeys data).drop ((dictKeys data).length - MAX_POINTS)

/-- Assignment `servers = sorted({s for v in data.values() for s in v})`. -/
def svgServers (data : TickDict String LatencyMap) : List String :=
  List.insertionSort (· ≤ ·) ((data.flatMap (fun p => p.2.map Prod.fst)).dedup)

/-- Python `a or b` on an int: `b` when `a == 0`, else `a`.  This is the
divisor guard `(len(keys)-1 or 1)`. -/
def pyOrInt (a b : ℤ) : ℤ := if a = 0 then b else a

/-- The x-coordinate divisor `(len(keys)-1 or 1)` of src/nezha.py line 194. -/
def xDivisor (keys : List String) : ℤ := pyOrInt ((keys.length : ℤ) - 1) 1

/-- Python `max(iterable, default=dflt)`. -/
def pyMaxD (l : List ℚ) (dflt : ℚ) : ℚ :=
  match l with
  | [] => dflt
  | x :: xs => xs.foldl max x

/-- Value `max_latency` (src/nezha.py lines 175–179): the maximum sample over the
whole dict, with default 100 and a floor of 100. -/
def svgMaxLatency (data : TickDict String LatencyMap) : ℚ :=
  max (pyMaxD (data.flatMap (fun p => p.2.map Prod.snd)) 100) 100

/-- Function `x(i)` (src/nezha.py lines 193–194). -/
def svgX (keys : List String) (i : Nat) : ℚ :=
  (PADDING : ℚ) + i * ((WIDTH : ℚ) - 2 * PADDING) / ((xDivisor keys : ℤ) : ℚ)

/-- Function `y(v)` (src/nezha.py lines 196–197). -/
def svgY (maxLat : ℚ) (v : ℚ) : ℚ :=
  (HEIGHT : ℚ) - PADDING - v * ((HEIGHT : ℚ) - 2 * PADDING) / maxLat

def svgHeader : String :=
  "<svg width=\"" ++ toString WIDTH ++ "\" height=\"" ++ toString HEIGHT ++
  "\" viewBox=\"0 0 " ++ toString WIDTH ++ " " ++ toString HEIGHT ++
  "\" xmlns=\"http://www.w3.org/2000/svg\">"

def svgAxis1 : String :=
  "<line x1=\"" ++ toString PADDING ++ "\" y1=\"" ++ toString PADDING ++
  "\" x2=\"" ++ toString PADDING ++ "\" y2=\"" ++ toString (HEIGHT - PADDING) ++
  "\" stroke=\"#888\"/>"

def svgAxis2 : String :=
  "<line x1=\"" ++ toString PADDING ++ "\" y1=\"" ++ toString (HEIGHT - PADDING) ++
  "\" x2=\"" ++ toString (WIDTH - PADDING) ++ "\" y2=\"" ++ toString (HEIGHT - PADDING) ++
  "\" stroke=\"#888\"/>"

/-- The point list of one polyline: `v = data.get(k, {}).get(name, 0)` at
each tick index.  Number formatting is `toString` of the exact rational in
place of CPython float formatting. -/
def ptsFor (keys : List String) (maxLat : ℚ) (data : TickDict String LatencyMap)
    (name : String) : List String :=
  keys.enum.map (fun ik =>
    toString (svgX keys ik.1) ++ "," ++
    toString (svgY maxLat (dictGetD (dictGetD data ik.2 []) name 0)))

def polylineFor (color : String → String) (keys : List String) (maxLat : ℚ)
    (data : TickDict String LatencyMap) (name : String) : String :=
  "<polyline fill=\"none\" stroke=\"" ++ color name ++
  "\" stroke-width=\"2\" points=\"" ++
  String.intercalate " " (ptsFor keys maxLat data name) ++ "\"/>"

/-- The legend loop (src/nezha.py lines 213–220): one `<text>` element per
server, with `lx` advancing by `len(name)*7 + 14`. -/
def legendTexts (color : String → String) : Nat → List String → List String
  | _, [] => []
  | lx, n :: rest =>
      ("<text x=\"" ++ toString lx ++ "\" y=\"" ++ toString (PADDING - 10) ++
        "\" font-size=\"10\" fill=\"" ++ color n ++ "\">" ++ n ++ "</text>")
        :: legendTexts color (lx + n.length * 7 + 14) rest

/-- The SVG document as its list of elements: header, the two axis lines,
one polyline per server, the legend, and the closing tag.  `color` stands
for the md5-based `color_for`. -/
def svgLines (color : String → String) (data : TickDict String LatencyMap) :
    List String :=
  [svgHeader, svgAxis1, svgAxis2]
    ++ (svgServers data).map (polylineFor color (svgKeys data) (svgMaxLatency data) data)
    ++ legendTexts color PADDING (svgServers data)
    ++ ["</svg>"]

def svgOf (color : String → String) (data : TickDict String LatencyMap) : String :=
  String.intercalate "\n" (svgLines color data)

/-- Function `generate_svg()` (src/nezha.py lines 162–223): the placeholder string
when the file does not exist, a raise out of `json.loads` when it is
corrupt, else the rendered document. -/
def generate_svg (color : String → String)
    (fs : FileState (TickDict String LatencyMap)) : Except Unit String :=
  match fs with
  | .missing => .ok "暂无数据"
  | .corrupt => .error ()
  | .good d => .ok (svgOf color d)

/-! ## Claims C9 and C10 -/

/-- Claim C9, counterexample.  When the persisted file exists but holds
corrupt (non-JSON) content, both `record` and `generate_svg` raise out of
`json.loads` — there is no handler — so the stored history is not treated
as empty and the run does not continue. -/
theorem load_corrupt_fatal_cex :
    recordRun .corrupt "2024-01-01 00:00" [] = .error () ∧
    generate_svg (fun _ => "") .corrupt = .error () :=
  ⟨rfl, rfl⟩

/-- Claim C9, amended.  Only a missing file is treated as empty history:
`record` then starts from the empty dict and `generate_svg` returns its
placeholder.  A file that is unreadable or corrupt makes `json.loads`
raise in both `record` and `generate_svg`, aborting the run. -/
theorem load_missing_empty_corrupt_fatal (ts : String) (m : LatencyMap)
    (color : String → String) :
    recordRun .missing ts m = .ok (recordPure [] ts m) ∧
    recordRun .corrupt ts m = .error () ∧
    generate_svg color .missing = .ok "暂无数据" ∧
    generate_svg color .corrupt = .error () :=
  ⟨rfl, rfl, rfl, rfl⟩

/-- Claim C10 (confirmed).  The renderer is total on every stored series:
for a series with exactly one tick the x divisor `(len(keys)-1 or 1)` is
`1`; for every series the divisor is nonzero, so `x(i)` never divides by
zero; and on an existing-but-empty series the output is exactly the header,
the two axis lines and the closing tag — a well-formed document with no
polylines — while `generate_svg` returns it instead of raising. -/
theorem generate_svg_total (data : TickDict String LatencyMap)
    (h1 : (dictKeys data).length = 1) :
    xDivisor (svgKeys data) = 1 ∧
    (∀ d' : TickDict String LatencyMap, xDivisor (svgKeys d') ≠ 0) ∧
    (∀ color, svgLines color [] = [svgHeader, svgAxis1, svgAxis2, "</svg>"] ∧
       generate_svg color (.good []) = .ok (svgOf color [])) := by
  refine ⟨?_, ?_, ?_⟩
  · have hlen : (svgKeys data).length = 1 := by
      unfold svgKeys
      rw [List.length_drop, h1]
      decide
    unfold xDivisor pyOrInt
    rw [hlen]
    decide
  · intro d'
    unfold xDivisor pyOrInt
    by_cases hz : ((svgKeys d').length : ℤ) - 1 = 0
    · rw [if_pos hz]; decide
    · rw [if_neg hz]; exact hz
  · intro color
    exact ⟨rfl, rfl⟩

/-- Witness for `generate_svg_total` on the one-tick store
`{"2024-01-01 00:00": {"a": 42}}`. -/
theorem generate_svg_total_witness :
    xDivisor (svgKeys [("2024-01-01 00:00", [("a", (42:ℚ))])]) = 1 ∧
    (∀ d' : TickDict String LatencyMap, xDivisor (svgKeys d') ≠ 0) ∧
    (∀ color, svgLines color [] = [svgHeader, svgAxis1, svgAxis2, "</svg>"] ∧
       generate_svg color (.good []) = .ok (svgOf color [])) :=
  generate_svg_total [("2024-01-01 00:00", [("a", (42:ℚ))])] rfl
